import Mathlib

/-!
# event_timestamp.hpp

A shallow embedding of `src/event_timestamp.hpp`: the class template
`event_timestamp<CLOCK_ID>` (a packaged `struct timespec` with an "invalid"
sentinel), its static member `nanoseconds_resolution` with the function-local
static cache, the struct `tm_extended`, and the two conversion functions
`get_gmtime` and `get_localtime`.

Conventions of the embedding.

* Machine integers are `Int`. The only arithmetic of the header is in
  `nanoseconds_resolution`; there the 64-bit and 32-bit conversions are written
  out with `to_int64`, `to_uint64` and `to_int32`.
* A platform routine (`clock_gettime`, `clock_getres`, `gmtime_r`,
  `localtime_r`) is a parameter of the function that calls it. Its answer
  records the return value, the content it left in the caller's buffer and the
  value of `errno` after the call.
* A member function that writes to the object returns the pair of its return
  value and the object after the call. The static local `cached_resolution`
  is passed in and returned the same way.
* `EINVAL` and `ERANGE` come from `<cerrno>`; they are parameters.
-/

namespace EventTimestamp

/-! ## Data model -/

/-- The clock identifiers for which the header specialises `is_valid_clock`
to `true_type` (lines 26-30). The
`static_assert` of line 84 rejects the instantiation of the class for any
other identifier, so these two are the only values `CLOCK_ID` takes. -/
inductive clock_id where
  | CLOCK_REALTIME
  | CLOCK_REALTIME_COARSE
  deriving DecidableEq, Repr

/-- Modelled from the spec: `struct timespec` of `<ctime>`, whole seconds and
a nanosecond fraction. -/
structure timespec where
  tv_sec : Int
  tv_nsec : Int
  deriving DecidableEq, Repr

/-- The answer of `clock_gettime(2)` or `clock_getres(2)`: the return value
(`0`, or `-1` on failure), the content of the `timespec` buffer after the call
and the value of `errno` after the call. -/
structure clock_result where
  ret : Int
  buf : timespec
  errno : Int
  deriving DecidableEq, Repr

/-- The class `event_timestamp<CLOCK_ID>` (line 83): its only data member is
`timespec ts` (line 88). -/
structure event_timestamp (CLOCK_ID : clock_id) where
  ts : timespec
  deriving DecidableEq, Repr

/-- Modelled from the spec: `struct tm` of `<ctime>`, the platform calendar
breakdown: second, minute, hour, day of month, month, year offset, day of
week, day of year, DST indicator, UTC offset and zone abbreviation. -/
structure tm where
  tm_sec : Int
  tm_min : Int
  tm_hour : Int
  tm_mday : Int
  tm_mon : Int
  tm_year : Int
  tm_wday : Int
  tm_yday : Int
  tm_isdst : Int
  tm_gmtoff : Int
  tm_zone : String
  deriving DecidableEq, Repr

/-- The struct `tm_extended : public tm` (lines 150-153): the base `tm` and
the additional member `long tm_nsec`. -/
structure tm_extended extends tm where
  tm_nsec : Int
  deriving DecidableEq, Repr

/-- The answer of `gmtime_r(3)` or `localtime_r(3)`: whether the routine
returned `nullptr`, the content of the `struct tm` buffer after the call and
the value of `errno` after the call. -/
structure breakdown_result where
  is_null : Bool
  buf : tm
  errno : Int
  deriving DecidableEq, Repr

/-! ## Integer conversions -/

/-- The constant `INT64_MAX` of `<cstdint>`. -/
def INT64_MAX : Int := 9223372036854775807

/-- The value of an integer as `std::int64_t` (two's complement, modulo
`2^64`). -/
def to_int64 (x : Int) : Int :=
  (x + 9223372036854775808) % 18446744073709551616 - 9223372036854775808

/-- The value of an integer as `std::uint64_t` (modulo `2^64`). -/
def to_uint64 (x : Int) : Int :=
  x % 18446744073709551616

/-- The value of an integer as `int` (32 bits, two's complement). -/
def to_int32 (x : Int) : Int :=
  (x + 2147483648) % 4294967296 - 2147483648

/-- Whether an integer is representable as `std::int64_t`. -/
def fits_int64 (x : Int) : Bool :=
  decide (-9223372036854775808 ≤ x) && decide (x ≤ INT64_MAX)

/-! ## The class event_timestamp -/

/-- The default constructor `event_timestamp()` (lines 106-110):
`ts.tv_sec = 0; ts.tv_nsec = -1;`. Its body calls no platform routine, so it
takes none. (The source name, that of the class, is taken by the structure.) -/
def event_timestamp.construct (CLOCK_ID : clock_id) :
    event_timestamp CLOCK_ID :=
  { ts := { tv_sec := 0, tv_nsec := -1 } }

/-- The member `is_valid` (line 126): `return ts.tv_nsec >= 0;`. -/
def event_timestamp.is_valid {CLOCK_ID : clock_id}
    (self : event_timestamp CLOCK_ID) : Bool :=
  decide (self.ts.tv_nsec ≥ 0)

/-- The member `gettime` (lines 112-120). `clock_gettime` is given the clock
and the content of `ts` before the call. Returns the return value and the
object after the call. -/
def event_timestamp.gettime {CLOCK_ID : clock_id}
    (clock_gettime : clock_id → timespec → clock_result)
    (self : event_timestamp CLOCK_ID) : Int × event_timestamp CLOCK_ID :=
  let r := clock_gettime CLOCK_ID self.ts
  if r.ret = -1 then
    (r.errno, { ts := { tv_sec := 0, tv_nsec := -1 } })
  else
    (0, { ts := r.buf })

/-- The exact (unbounded) value of the expression of line 101,
`res.tv_sec * 1000000000 + res.tv_nsec`. -/
def resolution_sum (res : timespec) : Int :=
  res.tv_sec * 1000000000 + res.tv_nsec

/-- The static member `nanoseconds_resolution` (lines 90-104).
`cached_resolution` is the value of the static local before the call (`-1`
at program start, line 92); the result is the return value and the value of
the static local after the call. The arithmetic of line 101 is done in
`std::int64_t`; where it leaves the range the embedding wraps modulo `2^64`. -/
def event_timestamp.nanoseconds_resolution (ERANGE : Int) (CLOCK_ID : clock_id)
    (clock_getres : clock_id → clock_result) (cached_resolution : Int) :
    Int × Int :=
  if cached_resolution < 0 then
    let r := clock_getres CLOCK_ID
    if r.ret = -1 then
      (to_int64 (to_uint64 (to_int32 (-r.errno))), cached_resolution)
    else if r.buf.tv_sec > INT64_MAX / 1000000000 then
      (-ERANGE, cached_resolution)
    else
      let v := to_int64 (to_int64 (r.buf.tv_sec * 1000000000) + r.buf.tv_nsec)
      (v, v)
  else
    (cached_resolution, cached_resolution)

/-- A sequence of calls of `nanoseconds_resolution` for one clock: the
platform answers one call after the other, the static local is threaded
through. Returns the list of return values and the final static local. -/
def nanoseconds_resolution_calls (ERANGE : Int) (CLOCK_ID : clock_id) :
    List (clock_id → clock_result) → Int → List Int × Int
  | [], cached_resolution => ([], cached_resolution)
  | p :: ps, cached_resolution =>
    let r := event_timestamp.nanoseconds_resolution ERANGE CLOCK_ID p cached_resolution
    let rest := nanoseconds_resolution_calls ERANGE CLOCK_ID ps r.2
    (r.1 :: rest.1, rest.2)

/-! ## The conversion functions -/

/-- The function `get_gmtime` (lines 167-177). `gmtime_r` is given the
`time_t` the object exposes (`ts.tv_sec`, line 124) and the content of the
`struct tm` base of `brokendown_time` before the call (line 152); what it
leaves in the buffer becomes the base of the output. Returns the return value
and `brokendown_time` after the call. -/
def get_gmtime {CLOCK_ID : clock_id} (EINVAL : Int)
    (gmtime_r : Int → tm → breakdown_result)
    (evts : event_timestamp CLOCK_ID) (brokendown_time : tm_extended) :
    Int × tm_extended :=
  if !evts.is_valid then
    (EINVAL, brokendown_time)
  else
    let r := gmtime_r evts.ts.tv_sec brokendown_time.totm
    if r.is_null then
      (r.errno, { brokendown_time with totm := r.buf })
    else
      (0, { brokendown_time with totm := r.buf })

/-- The function `get_localtime` (lines 188-198), as `get_gmtime` with
`localtime_r`. -/
def get_localtime {CLOCK_ID : clock_id} (EINVAL : Int)
    (localtime_r : Int → tm → breakdown_result)
    (evts : event_timestamp CLOCK_ID) (brokendown_time : tm_extended) :
    Int × tm_extended :=
  if !evts.is_valid then
    (EINVAL, brokendown_time)
  else
    let r := localtime_r evts.ts.tv_sec brokendown_time.totm
    if r.is_null then
      (r.errno, { brokendown_time with totm := r.buf })
    else
      (0, { brokendown_time with totm := r.buf })

/-! ## Example platforms and inputs -/

/-- A clock query that fails with error code `e` and leaves the buffer as it
found it. -/
def clock_gettime_fails (e : Int) : clock_id → timespec → clock_result :=
  fun _ b => { ret := -1, buf := b, errno := e }

/-- A clock query that succeeds and reports `s` seconds, `n` nanoseconds. -/
def clock_gettime_reports (s n : Int) : clock_id → timespec → clock_result :=
  fun _ _ => { ret := 0, buf := { tv_sec := s, tv_nsec := n }, errno := 0 }

/-- A resolution query that fails with error code `e`. -/
def clock_getres_fails (e : Int) : clock_id → clock_result :=
  fun _ => { ret := -1, buf := { tv_sec := 0, tv_nsec := 0 }, errno := e }

/-- A resolution query that succeeds and reports `s` seconds, `n`
nanoseconds. -/
def clock_getres_reports (s n : Int) : clock_id → clock_result :=
  fun _ => { ret := 0, buf := { tv_sec := s, tv_nsec := n }, errno := 0 }

/-- The UTC breakdown of epoch second 1700000000: 2023-11-14 22:13:20, a
Tuesday, day 317 of the year. -/
def tm_2023_11_14 : tm :=
  { tm_sec := 20, tm_min := 13, tm_hour := 22, tm_mday := 14, tm_mon := 10,
    tm_year := 123, tm_wday := 2, tm_yday := 317, tm_isdst := 0,
    tm_gmtoff := 0, tm_zone := "GMT" }

/-- A breakdown routine that succeeds and fills the buffer with the breakdown
of 2023-11-14 22:13:20 UTC. -/
def breakdown_succeeds : Int → tm → breakdown_result :=
  fun _ _ => { is_null := false, buf := tm_2023_11_14, errno := 0 }

/-- A breakdown routine that fails with error code `e` and leaves the buffer
as it found it. -/
def breakdown_fails (e : Int) : Int → tm → breakdown_result :=
  fun _ b => { is_null := true, buf := b, errno := e }

/-- An output structure before conversion: every calendar field zero, an
empty zone name, and `7` in `tm_nsec`. -/
def tm_extended_before : tm_extended :=
  { tm_sec := 0, tm_min := 0, tm_hour := 0, tm_mday := 0, tm_mon := 0,
    tm_year := 0, tm_wday := 0, tm_yday := 0, tm_isdst := 0,
    tm_gmtoff := 0, tm_zone := "", tm_nsec := 7 }

/-- A valid timestamp: 1700000000 seconds, 500000000 nanoseconds. -/
def evts_1700000000 : event_timestamp clock_id.CLOCK_REALTIME :=
  { ts := { tv_sec := 1700000000, tv_nsec := 500000000 } }

/-! ## Lemmas -/

theorem is_valid_iff {CLOCK_ID : clock_id} (x : event_timestamp CLOCK_ID) :
    x.is_valid = true ↔ x.ts.tv_nsec ≥ 0 := by
  simp [event_timestamp.is_valid]

theorem is_valid_eq_false_iff {CLOCK_ID : clock_id} (x : event_timestamp CLOCK_ID) :
    x.is_valid = false ↔ x.ts.tv_nsec < 0 := by
  simp [event_timestamp.is_valid]

/-! ## gettime -/

/-- Claim C3: whatever the state of the object before the call, when the clock
query fails (returns `-1`) with error code `e` in `errno`, `gettime` returns
`e` and leaves the object in the state `tv_sec = 0`, `tv_nsec = -1`, on which
`is_valid` is false. -/
theorem gettime_failure {CLOCK_ID : clock_id}
    (clock_gettime : clock_id → timespec → clock_result)
    (self : event_timestamp CLOCK_ID) (e : Int)
    (hret : (clock_gettime CLOCK_ID self.ts).ret = -1)
    (herrno : (clock_gettime CLOCK_ID self.ts).errno = e) :
    (self.gettime clock_gettime).1 = e ∧
    (self.gettime clock_gettime).2.ts = { tv_sec := 0, tv_nsec := -1 } ∧
    (self.gettime clock_gettime).2.is_valid = false := by
  simp [event_timestamp.gettime, event_timestamp.is_valid, hret, herrno]

theorem gettime_failure_witness :
    ((clock_gettime_fails 22) clock_id.CLOCK_REALTIME
        { tv_sec := 1700000000, tv_nsec := 500000000 }).ret = -1 ∧
    (event_timestamp.gettime (clock_gettime_fails 22)
        (event_timestamp.mk { tv_sec := 1700000000, tv_nsec := 500000000 } :
          event_timestamp clock_id.CLOCK_REALTIME)).1 = 22 ∧
    (event_timestamp.gettime (clock_gettime_fails 22)
        (event_timestamp.mk { tv_sec := 1700000000, tv_nsec := 500000000 } :
          event_timestamp clock_id.CLOCK_REALTIME)).2.ts
      = { tv_sec := 0, tv_nsec := -1 } ∧
    (event_timestamp.gettime (clock_gettime_fails 22)
        (event_timestamp.mk { tv_sec := 1700000000, tv_nsec := 500000000 } :
          event_timestamp clock_id.CLOCK_REALTIME)).2.is_valid = false :=
  ⟨by decide,
   gettime_failure (clock_gettime_fails 22)
     (event_timestamp.mk { tv_sec := 1700000000, tv_nsec := 500000000 } :
        event_timestamp clock_id.CLOCK_REALTIME) 22 (by decide) (by decide)⟩

/-- Claim C4: whatever the state of the object before the call, when the clock
query succeeds (returns `0`) and reports the pair `(s, n)` with
`0 ≤ n ≤ 999999999`, `gettime` returns `0`, the object holds exactly `(s, n)`,
its sub-second field lies in `[0, 999999999]` and `is_valid` is true. -/
theorem gettime_success {CLOCK_ID : clock_id}
    (clock_gettime : clock_id → timespec → clock_result)
    (self : event_timestamp CLOCK_ID) (s n : Int)
    (hret : (clock_gettime CLOCK_ID self.ts).ret = 0)
    (hbuf : (clock_gettime CLOCK_ID self.ts).buf = { tv_sec := s, tv_nsec := n })
    (hlo : 0 ≤ n) (hhi : n ≤ 999999999) :
    (self.gettime clock_gettime).1 = 0 ∧
    (self.gettime clock_gettime).2.ts = { tv_sec := s, tv_nsec := n } ∧
    0 ≤ (self.gettime clock_gettime).2.ts.tv_nsec ∧
    (self.gettime clock_gettime).2.ts.tv_nsec ≤ 999999999 ∧
    (self.gettime clock_gettime).2.is_valid = true := by
  simp [event_timestamp.gettime, event_timestamp.is_valid, hret, hbuf, hlo, hhi]

theorem gettime_success_witness :
    (event_timestamp.gettime (clock_gettime_reports 1700000000 500000000)
        (event_timestamp.construct clock_id.CLOCK_REALTIME_COARSE)).1 = 0 ∧
    (event_timestamp.gettime (clock_gettime_reports 1700000000 500000000)
        (event_timestamp.construct clock_id.CLOCK_REALTIME_COARSE)).2.ts
      = { tv_sec := 1700000000, tv_nsec := 500000000 } ∧
    0 ≤ (event_timestamp.gettime (clock_gettime_reports 1700000000 500000000)
        (event_timestamp.construct clock_id.CLOCK_REALTIME_COARSE)).2.ts.tv_nsec ∧
    (event_timestamp.gettime (clock_gettime_reports 1700000000 500000000)
        (event_timestamp.construct clock_id.CLOCK_REALTIME_COARSE)).2.ts.tv_nsec
      ≤ 999999999 ∧
    (event_timestamp.gettime (clock_gettime_reports 1700000000 500000000)
        (event_timestamp.construct clock_id.CLOCK_REALTIME_COARSE)).2.is_valid
      = true :=
  gettime_success (clock_gettime_reports 1700000000 500000000)
    (event_timestamp.construct clock_id.CLOCK_REALTIME_COARSE)
    1700000000 500000000 (by decide) (by decide) (by decide) (by decide)

/-! ## The default constructor and is_valid -/

/-- Claim C5: a default-constructed `event_timestamp` has the state
`tv_sec = 0`, `tv_nsec = -1` (the constructor takes nothing from the platform,
so this holds whatever the platform clock reports) and `is_valid` is false on
it; and for every `event_timestamp`, whatever its `tv_sec`, `is_valid` is true
if and only if `tv_nsec ≥ 0`. -/
theorem default_constructed_invalid (CLOCK_ID : clock_id) :
    (event_timestamp.construct CLOCK_ID).ts = { tv_sec := 0, tv_nsec := -1 } ∧
    (event_timestamp.construct CLOCK_ID).is_valid = false ∧
    ∀ s n : Int,
      ((event_timestamp.mk { tv_sec := s, tv_nsec := n } :
          event_timestamp CLOCK_ID).is_valid = true ↔ n ≥ 0) := by
  refine ⟨rfl, ?_, ?_⟩
  · simp [event_timestamp.construct, event_timestamp.is_valid]
  intro s n
  simp [event_timestamp.is_valid]

/-! ## get_gmtime and get_localtime -/

/-- Neither conversion function writes `tm_nsec`: on every path the output
keeps the `tm_nsec` it had before the call. -/
theorem conversion_keeps_tm_nsec {CLOCK_ID : clock_id} (EINVAL : Int)
    (routine : Int → tm → breakdown_result)
    (evts : event_timestamp CLOCK_ID) (brokendown_time : tm_extended) :
    (get_gmtime EINVAL routine evts brokendown_time).2.tm_nsec
      = brokendown_time.tm_nsec ∧
    (get_localtime EINVAL routine evts brokendown_time).2.tm_nsec
      = brokendown_time.tm_nsec := by
  constructor
  · unfold get_gmtime
    split
    · rfl
    · dsimp only
      split <;> rfl
  · unfold get_localtime
    split
    · rfl
    · dsimp only
      split <;> rfl

/-- Claim C1, evaluated on the code: for the valid timestamp
`(1700000000, 500000000)` and a breakdown routine that succeeds, `get_gmtime`
and `get_localtime` return `0` and fill the calendar fields, but the output's
`tm_nsec` is still the `7` it held before the call, not `500000000`. -/
theorem conversion_success_tm_nsec_not_set :
    evts_1700000000.is_valid = true ∧
    (get_gmtime 22 breakdown_succeeds evts_1700000000 tm_extended_before).1 = 0 ∧
    (get_gmtime 22 breakdown_succeeds evts_1700000000 tm_extended_before).2.totm
      = tm_2023_11_14 ∧
    (get_gmtime 22 breakdown_succeeds evts_1700000000 tm_extended_before).2.tm_nsec
      = 7 ∧
    (get_gmtime 22 breakdown_succeeds evts_1700000000 tm_extended_before).2.tm_nsec
      ≠ evts_1700000000.ts.tv_nsec ∧
    (get_localtime 22 breakdown_succeeds evts_1700000000 tm_extended_before).1 = 0 ∧
    (get_localtime 22 breakdown_succeeds evts_1700000000 tm_extended_before).2.tm_nsec
      = 7 ∧
    (get_localtime 22 breakdown_succeeds evts_1700000000 tm_extended_before).2.tm_nsec
      ≠ evts_1700000000.ts.tv_nsec := by
  simp [get_gmtime, get_localtime, breakdown_succeeds, evts_1700000000,
    tm_extended_before, event_timestamp.is_valid]

/-- Claim C2: for every invalid `event_timestamp` (`tv_nsec < 0`), every output
structure and every pair of platform breakdown routines, `get_gmtime` and
`get_localtime` return `EINVAL` and give back the output structure as it was,
calendar fields and `tm_nsec` alike; the routines are universally quantified,
so the result does not depend on what they would have returned. -/
theorem conversion_invalid_input {CLOCK_ID : clock_id} (EINVAL : Int)
    (gmtime_r localtime_r : Int → tm → breakdown_result)
    (evts : event_timestamp CLOCK_ID) (brokendown_time : tm_extended)
    (hinvalid : evts.ts.tv_nsec < 0) :
    get_gmtime EINVAL gmtime_r evts brokendown_time = (EINVAL, brokendown_time) ∧
    get_localtime EINVAL localtime_r evts brokendown_time
      = (EINVAL, brokendown_time) := by
  have hv : evts.is_valid = false := (is_valid_eq_false_iff evts).2 hinvalid
  simp [get_gmtime, get_localtime, hv]

theorem conversion_invalid_input_witness :
    (event_timestamp.construct clock_id.CLOCK_REALTIME).ts.tv_nsec < 0 ∧
    get_gmtime 22 breakdown_succeeds
        (event_timestamp.construct clock_id.CLOCK_REALTIME) tm_extended_before
      = (22, tm_extended_before) ∧
    get_localtime 22 (breakdown_fails 75)
        (event_timestamp.construct clock_id.CLOCK_REALTIME) tm_extended_before
      = (22, tm_extended_before) :=
  ⟨by decide,
   conversion_invalid_input 22 breakdown_succeeds (breakdown_fails 75)
     (event_timestamp.construct clock_id.CLOCK_REALTIME) tm_extended_before
     (by decide)⟩

/-- Claim C10, evaluated on the code: with a platform clock whose query
succeeds and reports `(1700000000, 500000000)`, a default-constructed
`event_timestamp` still holds `(0, -1)`, not the reported pair, and `is_valid`
is false on it; a call of `gettime` on it is what stores the reported pair.
Converting the default-constructed object, as `main` does, returns `EINVAL`
(`22`) and leaves the output structure as it was. -/
theorem default_constructor_does_not_capture_time :
    ((clock_gettime_reports 1700000000 500000000) clock_id.CLOCK_REALTIME
        (event_timestamp.construct clock_id.CLOCK_REALTIME).ts).ret = 0 ∧
    (event_timestamp.construct clock_id.CLOCK_REALTIME).ts
      = { tv_sec := 0, tv_nsec := -1 } ∧
    (event_timestamp.construct clock_id.CLOCK_REALTIME).ts
      ≠ { tv_sec := 1700000000, tv_nsec := 500000000 } ∧
    (event_timestamp.construct clock_id.CLOCK_REALTIME).is_valid = false ∧
    (event_timestamp.gettime (clock_gettime_reports 1700000000 500000000)
        (event_timestamp.construct clock_id.CLOCK_REALTIME)).2.ts
      = { tv_sec := 1700000000, tv_nsec := 500000000 } ∧
    get_gmtime 22 breakdown_succeeds
        (event_timestamp.construct clock_id.CLOCK_REALTIME) tm_extended_before
      = (22, tm_extended_before) := by
  simp [event_timestamp.construct, event_timestamp.is_valid,
    event_timestamp.gettime, clock_gettime_reports, get_gmtime]

/-! ## nanoseconds_resolution -/

/-- The conversions of line 96, `(std::uint64_t) -errno` returned as
`std::int64_t`, give `-e` for an error code `0 < e ≤ INT_MAX`. -/
theorem to_int64_neg_errno (e : Int) (hpos : 0 < e) (hmax : e ≤ 2147483647) :
    to_int64 (to_uint64 (to_int32 (-e))) = -e := by
  unfold to_int64 to_uint64 to_int32
  omega

/-- With a populated cache (a non-negative static local) the call returns the
cached value and leaves it in place, whatever the platform would answer. -/
theorem nanoseconds_resolution_cached (ERANGE : Int) (CLOCK_ID : clock_id)
    (clock_getres : clock_id → clock_result) (cached_resolution : Int)
    (hc : 0 ≤ cached_resolution) :
    event_timestamp.nanoseconds_resolution ERANGE CLOCK_ID clock_getres
        cached_resolution
      = (cached_resolution, cached_resolution) := by
  unfold event_timestamp.nanoseconds_resolution
  rw [if_neg (by omega)]

/-- A call that did not take the failure return of line 96 and returned a
non-negative value has stored that value in the static local. -/
theorem nanoseconds_resolution_stores (ERANGE : Int) (hE : 0 < ERANGE)
    (CLOCK_ID : clock_id) (clock_getres : clock_id → clock_result)
    (cached_resolution : Int)
    (hok : cached_resolution < 0 → (clock_getres CLOCK_ID).ret ≠ -1)
    (hnn : 0 ≤ (event_timestamp.nanoseconds_resolution ERANGE CLOCK_ID
        clock_getres cached_resolution).1) :
    (event_timestamp.nanoseconds_resolution ERANGE CLOCK_ID clock_getres
        cached_resolution).2
      = (event_timestamp.nanoseconds_resolution ERANGE CLOCK_ID clock_getres
        cached_resolution).1 := by
  unfold event_timestamp.nanoseconds_resolution at hnn ⊢
  by_cases hc : cached_resolution < 0
  · have hret := hok hc
    simp only [hc, if_true, hret, if_false] at hnn ⊢
    by_cases hs : (clock_getres CLOCK_ID).buf.tv_sec > INT64_MAX / 1000000000
    · simp only [hs, if_true] at hnn
      omega
    · simp only [hs, if_false]
  · simp only [hc, if_false]

/-- With an unpopulated cache and a resolution `(s, n)`, `0 ≤ s`,
`0 ≤ n ≤ 999999999`, whose nanosecond count fits `std::int64_t`, the call
returns exactly `s * 1000000000 + n` and stores it. -/
theorem nanoseconds_resolution_exact (ERANGE : Int) (CLOCK_ID : clock_id)
    (clock_getres : clock_id → clock_result) (cached_resolution s n : Int)
    (hc : cached_resolution < 0)
    (hret : (clock_getres CLOCK_ID).ret ≠ -1)
    (hbuf : (clock_getres CLOCK_ID).buf = { tv_sec := s, tv_nsec := n })
    (hs : 0 ≤ s) (hlo : 0 ≤ n) (hfit : s * 1000000000 + n ≤ INT64_MAX) :
    event_timestamp.nanoseconds_resolution ERANGE CLOCK_ID clock_getres
        cached_resolution
      = (s * 1000000000 + n, s * 1000000000 + n) := by
  unfold event_timestamp.nanoseconds_resolution
  have hle : ¬ s > INT64_MAX / 1000000000 := by
    unfold INT64_MAX at hfit ⊢
    omega
  have h1 : to_int64 (s * 1000000000) = s * 1000000000 := by
    unfold INT64_MAX at hfit
    unfold to_int64
    omega
  have h2 : to_int64 (s * 1000000000 + n) = s * 1000000000 + n := by
    unfold INT64_MAX at hfit
    unfold to_int64
    omega
  simp only [hc, if_true, hret, if_false, hbuf, hle, h1, h2]

/-- With an unpopulated cache and a resolution whose whole seconds exceed
`INT64_MAX / 1000000000`, the call returns `-ERANGE` and stores nothing. -/
theorem nanoseconds_resolution_erange (ERANGE : Int) (CLOCK_ID : clock_id)
    (clock_getres : clock_id → clock_result) (cached_resolution : Int)
    (hc : cached_resolution < 0)
    (hret : (clock_getres CLOCK_ID).ret ≠ -1)
    (hs : (clock_getres CLOCK_ID).buf.tv_sec > 9223372036) :
    event_timestamp.nanoseconds_resolution ERANGE CLOCK_ID clock_getres
        cached_resolution
      = (-ERANGE, cached_resolution) := by
  unfold event_timestamp.nanoseconds_resolution
  have hgt : (clock_getres CLOCK_ID).buf.tv_sec > INT64_MAX / 1000000000 := by
    unfold INT64_MAX
    omega
  simp only [hc, if_true, hret, if_false, hgt]

/-- Every call in a sequence that starts with a populated cache `r` returns
`r` and the cache is `r` at the end. -/
theorem nanoseconds_resolution_calls_cached (ERANGE : Int) (CLOCK_ID : clock_id)
    (r : Int) (hr : 0 ≤ r) (later : List (clock_id → clock_result)) :
    nanoseconds_resolution_calls ERANGE CLOCK_ID later r
      = (List.replicate later.length r, r) := by
  induction later with
  | nil => rfl
  | cons p ps ih =>
    simp only [nanoseconds_resolution_calls,
      nanoseconds_resolution_cached ERANGE CLOCK_ID p r hr, ih,
      List.length_cons, List.replicate_succ]

/-- Claim C6, evaluated on the code: with an unpopulated cache (`-1`) and a
platform that reports the resolution `s = 9223372036`, `n = 999999999`, the
nanosecond count `s * 1000000000 + n = 9223372036999999999` is not
representable in `std::int64_t`, yet the guard of line 98 lets it through
(`s` is not above `INT64_MAX / 1000000000 = 9223372036`): the call does not
return `-ERANGE` (`-34`), the addition of line 101 overflows, and on a
wrapping target the value returned and stored is `-9223372036709551617`. -/
theorem nanoseconds_resolution_overflow_unguarded :
    resolution_sum { tv_sec := 9223372036, tv_nsec := 999999999 }
      = 9223372036999999999 ∧
    fits_int64 (resolution_sum { tv_sec := 9223372036, tv_nsec := 999999999 })
      = false ∧
    INT64_MAX / 1000000000 = 9223372036 ∧
    event_timestamp.nanoseconds_resolution 34 clock_id.CLOCK_REALTIME
        (clock_getres_reports 9223372036 999999999) (-1)
      = (-9223372036709551617, -9223372036709551617) ∧
    (event_timestamp.nanoseconds_resolution 34 clock_id.CLOCK_REALTIME
        (clock_getres_reports 9223372036 999999999) (-1)).1 ≠ -34 := by
  refine ⟨by decide, by decide, by decide, ?_, ?_⟩
  · simp [event_timestamp.nanoseconds_resolution, clock_getres_reports,
      INT64_MAX, to_int64]
  · simp [event_timestamp.nanoseconds_resolution, clock_getres_reports,
      INT64_MAX, to_int64]

/-- Claim C7: with an unpopulated cache (a negative static local), when the
resolution query fails (returns `-1`) with an error code `0 < e ≤ INT_MAX` in
`errno`, `nanoseconds_resolution` returns exactly `-e` (the cast to unsigned
64-bit and the conversion back to the signed return type cancel), a negative
value that fits `std::int64_t` and whose negation is `e`; the cache is left as
it was, so the next call queries the platform again: when that query succeeds
and reports `n` nanoseconds, the next call returns `n`. -/
theorem nanoseconds_resolution_query_failure (ERANGE : Int) (CLOCK_ID : clock_id)
    (clock_getres : clock_id → clock_result) (cached_resolution e : Int)
    (hc : cached_resolution < 0)
    (hret : (clock_getres CLOCK_ID).ret = -1)
    (herrno : (clock_getres CLOCK_ID).errno = e)
    (hpos : 0 < e) (hmax : e ≤ 2147483647) :
    event_timestamp.nanoseconds_resolution ERANGE CLOCK_ID clock_getres
        cached_resolution
      = (-e, cached_resolution) ∧
    (event_timestamp.nanoseconds_resolution ERANGE CLOCK_ID clock_getres
        cached_resolution).1 < 0 ∧
    -(event_timestamp.nanoseconds_resolution ERANGE CLOCK_ID clock_getres
        cached_resolution).1 = e ∧
    fits_int64 (event_timestamp.nanoseconds_resolution ERANGE CLOCK_ID
        clock_getres cached_resolution).1 = true ∧
    ∀ n : Int, 0 ≤ n → n ≤ 999999999 →
      event_timestamp.nanoseconds_resolution ERANGE CLOCK_ID
          (clock_getres_reports 0 n)
          (event_timestamp.nanoseconds_resolution ERANGE CLOCK_ID clock_getres
            cached_resolution).2
        = (n, n) := by
  have hcall : event_timestamp.nanoseconds_resolution ERANGE CLOCK_ID
      clock_getres cached_resolution = (-e, cached_resolution) := by
    unfold event_timestamp.nanoseconds_resolution
    simp only [hc, if_true, hret, herrno, to_int64_neg_errno e hpos hmax]
  rw [hcall]
  refine ⟨rfl, by simpa using hpos, by simp, ?_, ?_⟩
  · simp only [fits_int64, INT64_MAX, Bool.and_eq_true, decide_eq_true_eq]
    omega
  · intro n hlo hhi
    have h := nanoseconds_resolution_exact ERANGE CLOCK_ID
      (clock_getres_reports 0 n) cached_resolution 0 n hc
      (by simp [clock_getres_reports]) rfl
      (le_refl 0) hlo (by unfold INT64_MAX; omega)
    simpa using h

theorem nanoseconds_resolution_query_failure_witness :
    (-1 : Int) < 0 ∧
    ((clock_getres_fails 22) clock_id.CLOCK_REALTIME_COARSE).ret = -1 ∧
    ((clock_getres_fails 22) clock_id.CLOCK_REALTIME_COARSE).errno = 22 ∧
    event_timestamp.nanoseconds_resolution 34 clock_id.CLOCK_REALTIME_COARSE
        (clock_getres_fails 22) (-1)
      = (-22, -1) ∧
    event_timestamp.nanoseconds_resolution 34 clock_id.CLOCK_REALTIME_COARSE
        (clock_getres_reports 0 4000000)
        (event_timestamp.nanoseconds_resolution 34
          clock_id.CLOCK_REALTIME_COARSE (clock_getres_fails 22) (-1)).2
      = (4000000, 4000000) :=
  ⟨by decide, by decide, by decide,
   (nanoseconds_resolution_query_failure 34 clock_id.CLOCK_REALTIME_COARSE
      (clock_getres_fails 22) (-1) 22 (by decide) (by decide) (by decide)
      (by decide) (by decide)).1,
   (nanoseconds_resolution_query_failure 34 clock_id.CLOCK_REALTIME_COARSE
      (clock_getres_fails 22) (-1) 22 (by decide) (by decide) (by decide)
      (by decide) (by decide)).2.2.2.2 4000000 (by decide) (by decide)⟩

/-- Claim C8: once a call of `nanoseconds_resolution` for a clock has succeeded
(it did not take the failure return of the platform query) with a non-negative
value `r`, the cache holds `r`, and every later call for that clock returns
`r` and leaves the cache equal to `r` whatever the platform would answer, a
success with any value or a failure: a single later call gives `(r, r)` for
every platform answer, and so does every call of any sequence of later calls.
`ERANGE` is a positive error code. -/
theorem nanoseconds_resolution_cache_stable (ERANGE : Int) (hE : 0 < ERANGE)
    (CLOCK_ID : clock_id) (first : clock_id → clock_result)
    (cached_resolution r : Int)
    (hok : cached_resolution < 0 → (first CLOCK_ID).ret ≠ -1)
    (hr : (event_timestamp.nanoseconds_resolution ERANGE CLOCK_ID first
        cached_resolution).1 = r)
    (hnn : 0 ≤ r) :
    (event_timestamp.nanoseconds_resolution ERANGE CLOCK_ID first
        cached_resolution).2 = r ∧
    (∀ later : clock_id → clock_result,
      event_timestamp.nanoseconds_resolution ERANGE CLOCK_ID later r = (r, r)) ∧
    (∀ later : List (clock_id → clock_result),
      nanoseconds_resolution_calls ERANGE CLOCK_ID later r
        = (List.replicate later.length r, r)) := by
  refine ⟨?_, ?_, ?_⟩
  · rw [nanoseconds_resolution_stores ERANGE hE CLOCK_ID first cached_resolution
      hok (by rw [hr]; exact hnn), hr]
  · intro later
    exact nanoseconds_resolution_cached ERANGE CLOCK_ID later r hnn
  · intro later
    exact nanoseconds_resolution_calls_cached ERANGE CLOCK_ID r hnn later

theorem nanoseconds_resolution_cache_stable_witness :
    ((clock_getres_reports 0 4000000) clock_id.CLOCK_REALTIME).ret ≠ -1 ∧
    (event_timestamp.nanoseconds_resolution 34 clock_id.CLOCK_REALTIME
        (clock_getres_reports 0 4000000) (-1)).1 = 4000000 ∧
    (event_timestamp.nanoseconds_resolution 34 clock_id.CLOCK_REALTIME
        (clock_getres_reports 0 4000000) (-1)).2 = 4000000 ∧
    event_timestamp.nanoseconds_resolution 34 clock_id.CLOCK_REALTIME
        (clock_getres_reports 0 1) 4000000
      = (4000000, 4000000) ∧
    nanoseconds_resolution_calls 34 clock_id.CLOCK_REALTIME
        [clock_getres_fails 22, clock_getres_reports 0 1,
         clock_getres_reports 9223372037 0] 4000000
      = ([4000000, 4000000, 4000000], 4000000) :=
  ⟨by decide, by decide,
   (nanoseconds_resolution_cache_stable 34 (by decide) clock_id.CLOCK_REALTIME
      (clock_getres_reports 0 4000000) (-1) 4000000 (fun _ => by decide)
      (by decide) (by decide)).1,
   (nanoseconds_resolution_cache_stable 34 (by decide) clock_id.CLOCK_REALTIME
      (clock_getres_reports 0 4000000) (-1) 4000000 (fun _ => by decide)
      (by decide) (by decide)).2.1 (clock_getres_reports 0 1),
   (nanoseconds_resolution_cache_stable 34 (by decide) clock_id.CLOCK_REALTIME
      (clock_getres_reports 0 4000000) (-1) 4000000 (fun _ => by decide)
      (by decide) (by decide)).2.2
      [clock_getres_fails 22, clock_getres_reports 0 1,
       clock_getres_reports 9223372037 0]⟩

/-- Claim C9 as stated fails: from an unpopulated cache (`-1`), when the first
resolution query fails with error code `22` and the second would succeed with
a resolution of `1` nanosecond, the first call returns `-22` and the second
returns `1`; so it is not the case that for every pair of platform outcomes
the second result equals the first. -/
theorem two_calls_not_always_identical :
    ¬ ∀ first second : clock_id → clock_result,
      (event_timestamp.nanoseconds_resolution 34 clock_id.CLOCK_REALTIME second
          (event_timestamp.nanoseconds_resolution 34 clock_id.CLOCK_REALTIME
            first (-1)).2).1
        = (event_timestamp.nanoseconds_resolution 34 clock_id.CLOCK_REALTIME
            first (-1)).1 := by
  intro h
  have h1 := h (clock_getres_fails 22) (clock_getres_reports 0 1)
  revert h1
  decide

/-- When the platform query of a call fails, the static local is left as it
was, so the next call returns what a call from the same cache returns on the
next platform answer. -/
theorem nanoseconds_resolution_retry_after_failure (ERANGE : Int)
    (CLOCK_ID : clock_id) (first second : clock_id → clock_result)
    (cached_resolution : Int) (hc : cached_resolution < 0)
    (hfail : (first CLOCK_ID).ret = -1) :
    event_timestamp.nanoseconds_resolution ERANGE CLOCK_ID second
        (event_timestamp.nanoseconds_resolution ERANGE CLOCK_ID first
          cached_resolution).2
      = event_timestamp.nanoseconds_resolution ERANGE CLOCK_ID second
          cached_resolution := by
  have h2 : (event_timestamp.nanoseconds_resolution ERANGE CLOCK_ID first
      cached_resolution).2 = cached_resolution := by
    unfold event_timestamp.nanoseconds_resolution
    simp only [hc, if_true, hfail]
  rw [h2]

/-- Claim C9, amended: for every pair of platform outcomes such that the first
call's query does not fail and the first call returns a non-negative value,
the second call returns the identical value, whatever the second outcome is.
This holds from every value of the static local before the first call, the
unpopulated cache `-1` of program start among them. `ERANGE` is a positive
error code. -/
theorem two_calls_identical_after_success (ERANGE : Int) (hE : 0 < ERANGE)
    (CLOCK_ID : clock_id) (first second : clock_id → clock_result)
    (cached_resolution : Int)
    (hok : (first CLOCK_ID).ret ≠ -1)
    (hnn : 0 ≤ (event_timestamp.nanoseconds_resolution ERANGE CLOCK_ID first
        cached_resolution).1) :
    (event_timestamp.nanoseconds_resolution ERANGE CLOCK_ID second
        (event_timestamp.nanoseconds_resolution ERANGE CLOCK_ID first
          cached_resolution).2).1
      = (event_timestamp.nanoseconds_resolution ERANGE CLOCK_ID first
          cached_resolution).1 := by
  rw [nanoseconds_resolution_stores ERANGE hE CLOCK_ID first cached_resolution
    (fun _ => hok) hnn]
  rw [nanoseconds_resolution_cached ERANGE CLOCK_ID second _ hnn]

theorem two_calls_identical_after_success_witness :
    ((clock_getres_reports 0 1) clock_id.CLOCK_REALTIME).ret ≠ -1 ∧
    0 ≤ (event_timestamp.nanoseconds_resolution 34 clock_id.CLOCK_REALTIME
        (clock_getres_reports 0 1) (-1)).1 ∧
    (event_timestamp.nanoseconds_resolution 34 clock_id.CLOCK_REALTIME
        (clock_getres_reports 0 4000000)
        (event_timestamp.nanoseconds_resolution 34 clock_id.CLOCK_REALTIME
          (clock_getres_reports 0 1) (-1)).2).1
      = (event_timestamp.nanoseconds_resolution 34 clock_id.CLOCK_REALTIME
          (clock_getres_reports 0 1) (-1)).1 :=
  ⟨by decide, by decide,
   two_calls_identical_after_success 34 (by decide) clock_id.CLOCK_REALTIME
     (clock_getres_reports 0 1) (clock_getres_reports 0 4000000) (-1)
     (by decide) (by decide)⟩

end EventTimestamp
